import Mathlib

/-!
Shallow embedding of the offer-calculator pricing engine (src/app.py).
Money values are modelled as rationals; the Python float constants
0.94, 1.0525, 1.1, 0.85 become the exact rationals 47/50, 421/400,
11/10, 17/20.
-/

/-- Configuration record: threshold table with per-tier purchase and
wholesale returns, mirroring the dict returned by `get_default_config`. -/
structure Config where
  thresholds : List ℚ
  purchase_returns : List ℚ
  wholesale_returns : List ℚ
deriving DecidableEq

/-- The hardcoded configuration from `get_default_config` in src/app.py. -/
def get_default_config : Config :=
  { thresholds := [
      0, 15000, 20000, 25000, 30000, 35000, 40000, 50000,
      60000, 70000, 80000, 100000, 125000, 150000, 175000,
      200000, 250000, 300000, 350000, 400000, 500000, 600000,
      700000, 900000, 1000000],
    purchase_returns := [
      0, 5000, 6000, 7500, 10000, 10000, 12000, 12500,
      15000, 17500, 20000, 25000, 30000, 37500, 42500,
      50000, 60000, 70000, 80000, 100000, 110000, 125000,
      150000, 175000, 300000],
    wholesale_returns := [
      0, 4000, 4000, 5000, 10000, 10000, 15000, 20000,
      17500, 20000, 22500, 20000, 22500, 25000, 30000,
      35000, 35000, 45000, 50000, 60000, 65000, 65000,
      70000, 80000, 100000] }

/-- The descending index scan of `get_expected_return`: argument `n` is the
number of rows still to inspect; row `n-1` is inspected first, matching
`for i in range(len(thresholds) - 1, -1, -1)`. -/
def get_expected_return_aux (fmv : ℚ) (thresholds returns : List ℚ) : ℕ → ℚ
  | 0 => 0
  | n + 1 =>
      if thresholds.getD n 0 ≤ fmv then returns.getD n 0
      else get_expected_return_aux fmv thresholds returns n

/-- The `returns` list selected inside `get_expected_return`:
`purchase_returns` when `offer_type == 'purchase'`, else `wholesale_returns`. -/
def returns_for (config : Config) (offer_type : String) : List ℚ :=
  if offer_type = "purchase" then config.purchase_returns
  else config.wholesale_returns

/-- `get_expected_return(fmv, config, offer_type)` from src/app.py: walks the
threshold list from the last row down and returns the matching row's
return column, or 0 if no threshold is ≤ fmv. -/
def get_expected_return (fmv : ℚ) (config : Config)
    (offer_type : String := "purchase") : ℚ :=
  get_expected_return_aux fmv config.thresholds (returns_for config offer_type)
    config.thresholds.length

/-- Python truthiness of the `custom_target` optional argument:
`None` and `0` are falsy, every other number is truthy. -/
def truthy : Option ℚ → Bool
  | none => false
  | some t => t ≠ 0

/-- Result record of `calculate_offers`. -/
structure Offers where
  purchase : ℚ
  wholesale : ℚ
  purchase_return : ℚ
  wholesale_return : ℚ
  nsp_purchase : ℚ
  nsp_wholesale : ℚ
deriving DecidableEq

/-- `calculate_offers(fmv, config, custom_target=None)` from src/app.py. -/
def calculate_offers (fmv : ℚ) (config : Config)
    (custom_target : Option ℚ := none) : Offers :=
  let purchase_return :=
    if truthy custom_target then custom_target.getD 0
    else get_expected_return fmv config "purchase"
  let wholesale_return :=
    if truthy custom_target then custom_target.getD 0
    else get_expected_return fmv config "wholesale"
  let nsp_purchase := fmv * (47/50) - 3500
  let nsp_wholesale := fmv * (47/50) - 2500
  let purchase_price := (nsp_purchase - purchase_return) / (421/400)
  let wholesale_price := nsp_wholesale - wholesale_return
  { purchase := max 0 purchase_price,
    wholesale := max 0 wholesale_price,
    purchase_return := purchase_return,
    wholesale_return := wholesale_return,
    nsp_purchase := nsp_purchase,
    nsp_wholesale := nsp_wholesale }

/-- `calculate_seller_finance(value, config, percentage=0.85)` from src/app.py. -/
def calculate_seller_finance (value : ℚ) (config : Config)
    (percentage : ℚ := 17/20) : ℚ :=
  let purchase_return := get_expected_return value config "purchase"
  let nsp_seller_finance := value * percentage * (47/50) - 3500
  let seller_finance := nsp_seller_finance - purchase_return
  max 0 seller_finance

/-- `calculate_subdivision_profit(total_subdiv_value, purchase_price)` from
src/app.py: `total * 0.94 - 15000 - purchase_price * 1.1`. -/
def calculate_subdivision_profit (total_subdiv_value purchase_price : ℚ) : ℚ :=
  (total_subdiv_value * (47/50)) - 15000 - (purchase_price * (11/10))

/-- `calculate_subdivision_purchase(total_subdiv_value, config)` from src/app.py. -/
def calculate_subdivision_purchase (total_subdiv_value : ℚ) (config : Config) : ℚ :=
  let purchase_return := get_expected_return total_subdiv_value config "purchase"
  let nsp_subdiv := total_subdiv_value * (47/50) - 15000
  let purchase_price := (nsp_subdiv - purchase_return) / (11/10)
  max 0 purchase_price

/-- The Negotiation-tab what-if evaluator (src/app.py line 1034):
`test_profit = offers['nsp_purchase'] - (test_purchase * 1.0525)`. -/
def test_profit (test_purchase nsp_purchase : ℚ) : ℚ :=
  nsp_purchase - test_purchase * (421/400)

/-! ### Helper lemmas about the descending scan -/

theorem get_expected_return_aux_succ (fmv : ℚ) (th ret : List ℚ) (n : ℕ) :
    get_expected_return_aux fmv th ret (n + 1)
      = if th.getD n 0 ≤ fmv then ret.getD n 0
        else get_expected_return_aux fmv th ret n := rfl

/-- If row `i` is the highest row (below the scan bound `n`) whose threshold
is ≤ fmv, the scan returns that row's return value. -/
theorem get_expected_return_aux_eq_of_hit (fmv : ℚ) (th ret : List ℚ) :
    ∀ n i, i < n → th.getD i 0 ≤ fmv →
      (∀ j, i < j → j < n → fmv < th.getD j 0) →
      get_expected_return_aux fmv th ret n = ret.getD i 0
  | 0, i, hi, _, _ => absurd hi (Nat.not_lt_zero i)
  | n + 1, i, hi, hle, hmax => by
      rw [get_expected_return_aux_succ]
      by_cases h : th.getD n 0 ≤ fmv
      · have hin : i = n := by
          by_contra hne
          have hlt : i < n := Nat.lt_of_le_of_ne (Nat.lt_succ_iff.mp hi) hne
          exact absurd h (not_le.mpr (hmax n hlt (Nat.lt_succ_self n)))
        rw [if_pos h, hin]
      · rw [if_neg h]
        have hin : i < n := by
          rcases Nat.lt_succ_iff_lt_or_eq.mp hi with h' | h'
          · exact h'
          · exact absurd (h' ▸ hle) h
        exact get_expected_return_aux_eq_of_hit fmv th ret n i hin hle
          (fun j hj hjn => hmax j hj (Nat.lt_succ_of_lt hjn))

/-- If fmv is below every threshold inspected by the scan, the scan falls
through and returns 0. -/
theorem get_expected_return_aux_eq_zero (fmv : ℚ) (th ret : List ℚ) :
    ∀ n, (∀ j, j < n → fmv < th.getD j 0) →
      get_expected_return_aux fmv th ret n = 0
  | 0, _ => rfl
  | n + 1, hall => by
      rw [get_expected_return_aux_succ,
        if_neg (not_le.mpr (hall n (Nat.lt_succ_self n)))]
      exact get_expected_return_aux_eq_zero fmv th ret n
        (fun j hj => hall j (Nat.lt_succ_of_lt hj))

/-- If the first threshold is already ≤ fmv, the scan result is the return
value of some row whose threshold is ≤ fmv. -/
theorem get_expected_return_aux_exists_hit (fmv : ℚ) (th ret : List ℚ) :
    ∀ n, 1 ≤ n → th.getD 0 0 ≤ fmv →
      ∃ i, i < n ∧ th.getD i 0 ≤ fmv ∧
        get_expected_return_aux fmv th ret n = ret.getD i 0
  | 0, h, _ => absurd h (by omega)
  | n + 1, _, h0 => by
      rw [get_expected_return_aux_succ]
      by_cases h : th.getD n 0 ≤ fmv
      · exact ⟨n, Nat.lt_succ_self n, h, by rw [if_pos h]⟩
      · have hn : 1 ≤ n := by
          rcases Nat.eq_zero_or_pos n with h' | h'
          · exact absurd (h' ▸ h0) h
          · exact h'
        obtain ⟨i, hi, hile, heq⟩ :=
          get_expected_return_aux_exists_hit fmv th ret n hn h0
        exact ⟨i, Nat.lt_succ_of_lt hi, hile, by rw [if_neg h]; exact heq⟩

/-- Monotonicity of the scan in fmv, given a pointwise-monotone return
column at least as long as the scan bound. -/
theorem get_expected_return_aux_mono (th ret : List ℚ) (fmv1 fmv2 : ℚ)
    (h12 : fmv1 ≤ fmv2) (h0 : th.getD 0 0 ≤ fmv1)
    (hret : ∀ i j, i ≤ j → j < ret.length → ret.getD i 0 ≤ ret.getD j 0) :
    ∀ n, n ≤ ret.length →
      get_expected_return_aux fmv1 th ret n ≤ get_expected_return_aux fmv2 th ret n
  | 0, _ => le_refl 0
  | n + 1, hn => by
      rw [get_expected_return_aux_succ, get_expected_return_aux_succ]
      by_cases h2 : th.getD n 0 ≤ fmv2
      · rw [if_pos h2]
        by_cases h1 : th.getD n 0 ≤ fmv1
        · rw [if_pos h1]
        · rw [if_neg h1]
          have hn1 : 1 ≤ n := by
            rcases Nat.eq_zero_or_pos n with h' | h'
            · exact absurd (h' ▸ h0) h1
            · exact h'
          obtain ⟨i, hi, _, heq⟩ :=
            get_expected_return_aux_exists_hit fmv1 th ret n hn1 h0
          rw [heq]
          exact hret i n (Nat.le_of_lt hi) (by omega)
      · rw [if_neg h2, if_neg (fun h1 => h2 (le_trans h1 h12))]
        exact get_expected_return_aux_mono th ret fmv1 fmv2 h12 h0 hret n (by omega)

/-- A `Chain' (≤)` list is monotone under `getD` at in-bounds indices. -/
theorem chain_le_getD {l : List ℚ} (hch : List.Chain' (· ≤ ·) l)
    {i j : ℕ} (hij : i ≤ j) (hj : j < l.length) : l.getD i 0 ≤ l.getD j 0 := by
  rcases Nat.eq_or_lt_of_le hij with h | hlt
  · rw [h]
  · have hp := List.chain'_iff_pairwise.mp hch
    have hget := List.pairwise_iff_get.mp hp ⟨i, lt_trans hlt hj⟩ ⟨j, hj⟩ hlt
    rw [List.getD_eq_getElem l 0 (lt_trans hlt hj), List.getD_eq_getElem l 0 hj]
    simpa using hget

/-! ### Claim theorems -/

/-- C1: for every adjusted FMV value and every tier table, `calculate_offers`
returns purchasePrice = max(0, (adjustedFMV × 0.94 − 3500 − expectedReturn(purchase)) / 1.0525),
wholesalePrice = max(0, adjustedFMV × 0.94 − 2500 − expectedReturn(wholesale)),
with nspPurchase = adjustedFMV × 0.94 − 3500 and
nspWholesale = adjustedFMV × 0.94 − 2500 reported alongside. -/
theorem calculate_offers_formulas (fmv : ℚ) (config : Config) :
    (calculate_offers fmv config none).purchase
        = max 0 ((fmv * (47/50) - 3500 - get_expected_return fmv config "purchase")
            / (421/400))
    ∧ (calculate_offers fmv config none).wholesale
        = max 0 (fmv * (47/50) - 2500 - get_expected_return fmv config "wholesale")
    ∧ (calculate_offers fmv config none).nsp_purchase = fmv * (47/50) - 3500
    ∧ (calculate_offers fmv config none).nsp_wholesale = fmv * (47/50) - 2500 :=
  ⟨rfl, rfl, rfl, rfl⟩

/-- C2: for a tier table whose thresholds start at 0 and are strictly
increasing, `get_expected_return` returns the return column of the
highest-threshold row whose threshold is ≤ fmv, and it returns 0 when fmv
is below every threshold (with the invariant, only possible when fmv < 0). -/
theorem get_expected_return_step_semantics (fmv : ℚ) (config : Config)
    (kind : String)
    (hsorted : List.Chain' (· < ·) config.thresholds)
    (hzero : config.thresholds.getD 0 0 = 0) :
    (∀ i ∈ List.range config.thresholds.length,
        config.thresholds.getD i 0 ≤ fmv →
        (∀ j ∈ List.range config.thresholds.length,
            i < j → fmv < config.thresholds.getD j 0) →
        get_expected_return fmv config kind = (returns_for config kind).getD i 0)
    ∧ (fmv < 0 → get_expected_return fmv config kind = 0) := by
  constructor
  · intro i hi hle hmax
    rw [List.mem_range] at hi
    exact get_expected_return_aux_eq_of_hit fmv config.thresholds
      (returns_for config kind) config.thresholds.length i hi hle
      (fun j hj hjlen => hmax j (List.mem_range.mpr hjlen) hj)
  · intro hneg
    apply get_expected_return_aux_eq_zero
    intro j hj
    have hch : List.Chain' (· ≤ ·) config.thresholds :=
      List.Chain'.imp (fun _ _ h => le_of_lt h) hsorted
    have h0j : config.thresholds.getD 0 0 ≤ config.thresholds.getD j 0 :=
      chain_le_getD hch (Nat.zero_le j) hj
    calc fmv < 0 := hneg
      _ = config.thresholds.getD 0 0 := hzero.symm
      _ ≤ config.thresholds.getD j 0 := h0j

/-- Witness for C2: on the default table at fmv = 100000, the highest row
with threshold ≤ 100000 is row 11 (threshold 100000), whose purchase
return is 25000. -/
theorem get_expected_return_step_semantics_witness :
    get_expected_return 100000 get_default_config "purchase"
      = (returns_for get_default_config "purchase").getD 11 0 :=
  (get_expected_return_step_semantics 100000 get_default_config "purchase"
      (List.chain'_iff_pairwise.mpr (by decide)) (by decide)).1
    11 (by decide) (by decide) (by decide)

/-- C3: all four price formulas (purchase, wholesale, seller finance,
subdivision purchase) clamp at zero for every input, including negative
adjusted FMV. -/
theorem prices_floor_at_zero (fmv value totalValue pct : ℚ) (config : Config)
    (custom_target : Option ℚ) :
    0 ≤ (calculate_offers fmv config custom_target).purchase
    ∧ 0 ≤ (calculate_offers fmv config custom_target).wholesale
    ∧ 0 ≤ calculate_seller_finance value config pct
    ∧ 0 ≤ calculate_subdivision_purchase totalValue config :=
  ⟨le_max_left 0 _, le_max_left 0 _, le_max_left 0 _, le_max_left 0 _⟩

/-- C4 counterexample: at V = 0 on the default table (which satisfies the
invariant), the subdivision purchase price clamps to 0, so the round-trip
profit is −15000 while expectedReturn(0, purchase) = 0 — off by 15000,
far outside 1 unit of currency. -/
theorem subdivision_roundtrip_counterexample :
    (0:ℚ) ≤ 0
    ∧ List.Chain' (· < ·) get_default_config.thresholds
    ∧ get_default_config.thresholds.getD 0 0 = 0
    ∧ calculate_subdivision_profit 0
        (calculate_subdivision_purchase 0 get_default_config) = -15000
    ∧ get_expected_return 0 get_default_config "purchase" = 0
    ∧ ¬ |calculate_subdivision_profit 0
            (calculate_subdivision_purchase 0 get_default_config)
          - get_expected_return 0 get_default_config "purchase"| ≤ 1 := by
  have hret : get_expected_return 0 get_default_config "purchase" = 0 := by decide
  have hprof : calculate_subdivision_profit 0
      (calculate_subdivision_purchase 0 get_default_config) = -15000 := by
    simp only [calculate_subdivision_profit, calculate_subdivision_purchase]
    norm_num [hret]
  refine ⟨le_refl 0, List.chain'_iff_pairwise.mpr (by decide), by decide,
    hprof, hret, ?_⟩
  rw [hprof, hret]
  norm_num

/-- C4 amended: the round-trip identity
`calculate_subdivision_profit(V, calculate_subdivision_purchase(V, table)) =
expectedReturn(V, table, purchase)` holds (exactly) whenever the clamp in
the purchase-price formula does not fire, i.e. whenever
`V × 0.94 − 15000 − expectedReturn(V, table, purchase) ≥ 0`. -/
theorem subdivision_roundtrip (V : ℚ) (config : Config)
    (h : 0 ≤ V * (47/50) - 15000 - get_expected_return V config "purchase") :
    calculate_subdivision_profit V (calculate_subdivision_purchase V config)
      = get_expected_return V config "purchase" := by
  simp only [calculate_subdivision_profit, calculate_subdivision_purchase]
  rw [max_eq_right (div_nonneg h (by norm_num))]
  rw [div_mul_cancel₀ _ (by norm_num : (11:ℚ)/10 ≠ 0)]
  ring

/-- Witness for C4 amended at V = 100000 on the default table. -/
theorem subdivision_roundtrip_witness :
    0 ≤ (100000:ℚ) * (47/50) - 15000
        - get_expected_return 100000 get_default_config "purchase"
    ∧ calculate_subdivision_profit 100000
        (calculate_subdivision_purchase 100000 get_default_config)
      = get_expected_return 100000 get_default_config "purchase" := by
  have hret : get_expected_return 100000 get_default_config "purchase" = 25000 := by
    decide
  have h : 0 ≤ (100000:ℚ) * (47/50) - 15000
      - get_expected_return 100000 get_default_config "purchase" := by
    rw [hret]; norm_num
  exact ⟨h, subdivision_roundtrip 100000 get_default_config h⟩

/-- C5 counterexample: the default table satisfies the threshold invariant,
yet the wholesale expected return *decreases* from 20000 at fmv = 50000 to
17500 at fmv = 60000, so `get_expected_return` is not monotone for the
wholesale kind on the default table. -/
theorem expected_return_monotone_counterexample :
    List.Chain' (· < ·) get_default_config.thresholds
    ∧ get_default_config.thresholds.getD 0 0 = 0
    ∧ (0:ℚ) ≤ 50000 ∧ (50000:ℚ) ≤ 60000
    ∧ get_expected_return 50000 get_default_config "wholesale" = 20000
    ∧ get_expected_return 60000 get_default_config "wholesale" = 17500
    ∧ ¬ get_expected_return 50000 get_default_config "wholesale"
          ≤ get_expected_return 60000 get_default_config "wholesale" :=
  ⟨List.chain'_iff_pairwise.mpr (by decide), by decide, by norm_num,
    by norm_num, by decide, by decide, by decide⟩

/-- C5 amended: `get_expected_return` is non-decreasing in fmv over fmv ≥ 0
for every table satisfying the threshold invariant *whose selected return
column is itself non-decreasing* (and at least as long as the threshold
list); on the default table this extra condition holds for the purchase
column but not the wholesale one. -/
theorem get_expected_return_monotone (config : Config) (kind : String)
    (fmv1 fmv2 : ℚ)
    (hsorted : List.Chain' (· < ·) config.thresholds)
    (hzero : config.thresholds.getD 0 0 = 0)
    (hlen : config.thresholds.length ≤ (returns_for config kind).length)
    (hret : List.Chain' (· ≤ ·) (returns_for config kind))
    (h1 : 0 ≤ fmv1) (h2 : fmv1 ≤ fmv2) :
    get_expected_return fmv1 config kind ≤ get_expected_return fmv2 config kind := by
  unfold get_expected_return
  exact get_expected_return_aux_mono config.thresholds (returns_for config kind)
    fmv1 fmv2 h2 (by rw [hzero]; exact h1)
    (fun i j hij hj => chain_le_getD hret hij hj)
    config.thresholds.length hlen

/-- Witness for C5 amended: on the default table's purchase column,
monotonicity at 50000 ≤ 60000. -/
theorem get_expected_return_monotone_witness :
    get_expected_return 50000 get_default_config "purchase"
      ≤ get_expected_return 60000 get_default_config "purchase" :=
  get_expected_return_monotone get_default_config "purchase" 50000 60000
    (List.chain'_iff_pairwise.mpr (by decide)) (by decide) (by decide)
    (List.chain'_iff_pairwise.mpr (by decide)) (by norm_num) (by norm_num)

/-- C6 counterexample: at adjustedFMV = 0 on the default table, the purchase
price clamps to 0 and the negotiation-tab evaluator reports a profit of
−3500, not expectedReturn(0, purchase) = 0. -/
theorem test_profit_counterexample :
    (0:ℚ) ≤ 0
    ∧ test_profit (calculate_offers 0 get_default_config none).purchase
        (calculate_offers 0 get_default_config none).nsp_purchase = -3500
    ∧ get_expected_return 0 get_default_config "purchase" = 0
    ∧ ¬ |test_profit (calculate_offers 0 get_default_config none).purchase
            (calculate_offers 0 get_default_config none).nsp_purchase
          - get_expected_return 0 get_default_config "purchase"| ≤ 1 := by
  have hret : get_expected_return 0 get_default_config "purchase" = 0 := by decide
  have hprof : test_profit (calculate_offers 0 get_default_config none).purchase
      (calculate_offers 0 get_default_config none).nsp_purchase = -3500 := by
    simp only [test_profit, calculate_offers, truthy]
    norm_num [hret]
  refine ⟨le_refl 0, hprof, hret, ?_⟩
  rw [hprof, hret]
  norm_num

/-- C6 amended: the negotiation-tab evaluator reproduces the expected return
exactly at the engine's own recommended purchase price whenever the
purchase-price clamp does not fire, i.e. whenever
`expectedReturn(adjustedFMV, table, purchase) ≤ nspPurchase`. -/
theorem test_profit_consistent (fmv : ℚ) (config : Config)
    (h : get_expected_return fmv config "purchase" ≤ fmv * (47/50) - 3500) :
    test_profit (calculate_offers fmv config none).purchase
      (calculate_offers fmv config none).nsp_purchase
      = get_expected_return fmv config "purchase" := by
  have hp : (calculate_offers fmv config none).purchase
      = max 0 ((fmv * (47/50) - 3500 - get_expected_return fmv config "purchase")
          / (421/400)) := rfl
  have hnsp : (calculate_offers fmv config none).nsp_purchase
      = fmv * (47/50) - 3500 := rfl
  rw [test_profit, hp, hnsp,
    max_eq_right (div_nonneg (by linarith) (by norm_num)),
    div_mul_cancel₀ _ (by norm_num : (421:ℚ)/400 ≠ 0)]
  ring

/-- Witness for C6 amended at adjustedFMV = 100000 on the default table. -/
theorem test_profit_consistent_witness :
    get_expected_return 100000 get_default_config "purchase"
        ≤ (100000:ℚ) * (47/50) - 3500
    ∧ test_profit (calculate_offers 100000 get_default_config none).purchase
        (calculate_offers 100000 get_default_config none).nsp_purchase
      = get_expected_return 100000 get_default_config "purchase" := by
  have hret : get_expected_return 100000 get_default_config "purchase" = 25000 := by
    decide
  have h : get_expected_return 100000 get_default_config "purchase"
      ≤ (100000:ℚ) * (47/50) - 3500 := by
    rw [hret]; norm_num
  exact ⟨h, test_profit_consistent 100000 get_default_config h⟩

/-- C7: for every value ≥ 0, table and percentage, the seller-finance price
is max(0, value × pct × 0.94 − 3500 − expectedReturn(value, table, purchase)):
it reuses the purchase tier and applies pct before the 0.94 haircut and the
3500 subtraction. -/
theorem calculate_seller_finance_spec (value pct : ℚ) (config : Config)
    (h : 0 ≤ value) :
    calculate_seller_finance value config pct
      = max 0 (value * pct * (47/50) - 3500
          - get_expected_return value config "purchase") := rfl

/-- Witness for C7 at value = 500000, pct = 0.85 on the default table. -/
theorem calculate_seller_finance_spec_witness :
    (0:ℚ) ≤ 500000
    ∧ calculate_seller_finance 500000 get_default_config (17/20)
      = max 0 (500000 * (17/20) * (47/50) - 3500
          - get_expected_return 500000 get_default_config "purchase") :=
  ⟨by norm_num,
    calculate_seller_finance_spec 500000 (17/20) get_default_config (by norm_num)⟩

/-- C8 counterexample: at FMV = 100000 on the default table the code computes
nspPurchase = 94000 − 3500 = 90500, not the claimed 90100, and
purchasePrice = 65500/1.0525 = 26200000/421 ≈ 62232.8, which is not within
1 of the claimed ≈ 61852. -/
theorem default_table_example_counterexample :
    (calculate_offers 100000 get_default_config none).nsp_purchase = 90500
    ∧ (90500:ℚ) ≠ 90100
    ∧ (calculate_offers 100000 get_default_config none).purchase = 26200000/421
    ∧ ¬ |(26200000/421:ℚ) - 61852| ≤ 1 := by
  have hret : get_expected_return 100000 get_default_config "purchase" = 25000 := by
    decide
  refine ⟨?_, by norm_num, ?_, ?_⟩
  · simp only [calculate_offers, truthy]
    norm_num
  · simp only [calculate_offers, truthy]
    norm_num [hret]
  · rw [abs_of_nonneg (by norm_num)]
    norm_num

/-- C8 amended: at FMV = 100000 on the default table,
expectedReturn(purchase) = 25000, expectedReturn(wholesale) = 20000,
nspPurchase = 90500, purchasePrice = (90500 − 25000)/1.0525 ≈ 62233
(it lies in [62232, 62233)), nspWholesale = 91500 and
wholesalePrice = 91500 − 20000 = 71500. -/
theorem default_table_example :
    get_expected_return 100000 get_default_config "purchase" = 25000
    ∧ get_expected_return 100000 get_default_config "wholesale" = 20000
    ∧ (calculate_offers 100000 get_default_config none).nsp_purchase = 90500
    ∧ (calculate_offers 100000 get_default_config none).purchase
        = (90500 - 25000) / (421/400)
    ∧ 62232 ≤ (calculate_offers 100000 get_default_config none).purchase
    ∧ (calculate_offers 100000 get_default_config none).purchase < 62233
    ∧ (calculate_offers 100000 get_default_config none).nsp_wholesale = 91500
    ∧ (calculate_offers 100000 get_default_config none).wholesale
        = 91500 - 20000 := by
  have hp : get_expected_return 100000 get_default_config "purchase" = 25000 := by
    decide
  have hw : get_expected_return 100000 get_default_config "wholesale" = 20000 := by
    decide
  have hprice : (calculate_offers 100000 get_default_config none).purchase
      = 26200000/421 := by
    simp only [calculate_offers, truthy]
    norm_num [hp]
  refine ⟨hp, hw, ?_, ?_, ?_, ?_, ?_, ?_⟩
  · simp only [calculate_offers, truthy]; norm_num
  · rw [hprice]; norm_num
  · rw [hprice]; norm_num
  · rw [hprice]; norm_num
  · simp only [calculate_offers, truthy]; norm_num
  · simp only [calculate_offers, truthy]
    norm_num [hw]

/-- C9 counterexample: the code computes a seller-finance price of 286000 at
value = 500000, pct = 0.85 on the default table — the claimed total 285000
is an arithmetic slip (the claim's own formula evaluates to 286000). -/
theorem seller_finance_example_counterexample :
    calculate_seller_finance 500000 get_default_config (17/20) = 286000
    ∧ (286000:ℚ) ≠ 285000 := by
  have hret : get_expected_return 500000 get_default_config "purchase" = 110000 := by
    decide
  constructor
  · simp only [calculate_seller_finance]
    norm_num [hret]
  · norm_num

/-- C9 amended: at value = 500000 and pct = 0.85 on the default table,
expectedReturn(500000, purchase) = 110000 and the seller-finance price is
500000 × 0.85 × 0.94 − 3500 − 110000 = 286000. -/
theorem seller_finance_example :
    get_expected_return 500000 get_default_config "purchase" = 110000
    ∧ calculate_seller_finance 500000 get_default_config (17/20)
        = 500000 * (17/20) * (47/50) - 3500 - 110000
    ∧ (500000 * (17/20) * (47/50) - 3500 - 110000 : ℚ) = 286000 := by
  have hret : get_expected_return 500000 get_default_config "purchase" = 110000 := by
    decide
  refine ⟨hret, ?_, by norm_num⟩
  simp only [calculate_seller_finance]
  norm_num [hret]

/-- C10: a nonzero custom target replaces *both* tier lookups in
`calculate_offers`, while a custom target of 0 (like None) falls back to the
tier lookups for both channels, so a custom target of exactly 0 cannot be
requested. -/
theorem calculate_offers_custom_target (fmv t : ℚ) (config : Config)
    (ht : t ≠ 0) :
    calculate_offers fmv config (some t)
      = { purchase := max 0 ((fmv * (47/50) - 3500 - t) / (421/400)),
          wholesale := max 0 (fmv * (47/50) - 2500 - t),
          purchase_return := t,
          wholesale_return := t,
          nsp_purchase := fmv * (47/50) - 3500,
          nsp_wholesale := fmv * (47/50) - 2500 }
    ∧ calculate_offers fmv config (some 0) = calculate_offers fmv config none
    ∧ (calculate_offers fmv config none).purchase_return
        = get_expected_return fmv config "purchase"
    ∧ (calculate_offers fmv config none).wholesale_return
        = get_expected_return fmv config "wholesale" := by
  refine ⟨?_, ?_, rfl, rfl⟩
  · simp [calculate_offers, truthy, ht]
  · simp [calculate_offers, truthy]

/-- Witness for C10 at fmv = 1, custom target 5 on the default table. -/
theorem calculate_offers_custom_target_witness :
    (5:ℚ) ≠ 0
    ∧ calculate_offers 1 get_default_config (some 5)
      = { purchase := max 0 ((1 * (47/50) - 3500 - 5) / (421/400)),
          wholesale := max 0 (1 * (47/50) - 2500 - 5),
          purchase_return := 5,
          wholesale_return := 5,
          nsp_purchase := 1 * (47/50) - 3500,
          nsp_wholesale := 1 * (47/50) - 2500 } :=
  ⟨by norm_num,
    (calculate_offers_custom_target 1 5 get_default_config (by norm_num)).1⟩
